import Mathlib

/-!
Shallow embedding of `consumer.go` from the mediasoup-go repository.

The Go `Consumer` owns mutable fields (pause flags, closed flag, score,
layers, priority) and performs observable side effects: outbound channel
requests, channel/payload-channel unsubscriptions, event emissions on the
consumer itself and on its observer emitter, and invocations of the
registered `OnX` handler slots.  We model the mutable fields as a pure
state record and every side effect as an element of an `Effect` trace;
each Go method becomes a function from the state (plus the environment's
response to any outbound request) to the new state, the emitted trace and
the returned error.  `Effect.handlerCall n` marks the point where the Go
code runs `if handler := consumer.onX; handler != nil { handler() }`.
-/

namespace Mediasoup

/-- Go struct `ConsumerScore` from consumer.go: score data replaced wholesale by the
"score" notification.  Go `uint16` values are modelled as `Nat` (no
arithmetic is performed on them). -/
structure ConsumerScore where
  score : Nat
  producerScore : Nat
  producerScores : List Nat
  deriving DecidableEq, Repr

/-- Go struct `ConsumerLayers` from consumer.go. -/
structure ConsumerLayers where
  spatialLayer : Nat
  temporalLayer : Nat
  deriving DecidableEq, Repr

/-- Go struct `ConsumerTraceEventData` from consumer.go ("trace" notification payload);
the `Info` map is opaque to the consumer logic and omitted. -/
structure ConsumerTraceEventData where
  ttype : String
  timestamp : Int
  direction : String
  deriving DecidableEq, Repr

/-- One observable side effect of a `Consumer` method, in program order:
an outbound `channel.Request`, an `Unsubscribe` on either channel, an
`Emit`/`SafeEmit` on the consumer, a `SafeEmit` on the observer emitter,
reaching a non-nil `onX` handler invocation site, `RemoveAllListeners` on
the consumer or the observer, or a log line. -/
inductive Effect where
  | request (method : String) : Effect
  | unsubscribeChannel : Effect
  | unsubscribePayload : Effect
  | emit (name : String) : Effect
  | safeEmit (name : String) : Effect
  | observerEmit (name : String) : Effect
  | handlerCall (name : String) : Effect
  | removeAllListeners : Effect
  | observerRemoveAllListeners : Effect
  | log (msg : String) : Effect
  deriving DecidableEq, Repr

/-- The mutable fields of the Go `Consumer` struct that the lifecycle logic
reads or writes.  `closed` is a `uint32` touched only through
`atomic.LoadUint32` / `atomic.CompareAndSwapUint32(0,1)`, hence a `Bool`
whose transition to `true` happens at most once. -/
structure Consumer where
  paused : Bool
  producerPaused : Bool
  closed : Bool
  priority : Nat
  score : ConsumerScore
  preferredLayers : Option ConsumerLayers
  currentLayers : Option ConsumerLayers
  deriving DecidableEq, Repr

/-- The fields of Go `consumerParams` that feed the modelled state. -/
structure ConsumerParams where
  paused : Bool
  producerPaused : Bool
  score : Option ConsumerScore
  preferredLayers : Option ConsumerLayers
  deriving DecidableEq, Repr

/-- Constructor `newConsumer`: when `params.score` is nil the score defaults to
`{Score: 10, ProducerScore: 10, ProducerScores: []}`; priority starts at 1,
currentLayers nil, closed flag 0. -/
def newConsumer (params : ConsumerParams) : Consumer :=
  { paused := params.paused
    producerPaused := params.producerPaused
    closed := false
    priority := 1
    score := params.score.getD ⟨10, 10, []⟩
    preferredLayers := params.preferredLayers
    currentLayers := none }

/-- The outcome the environment gives to an outbound `channel.Request`:
`none` means the worker answered with success, `some e` means
`response.Err()` is the error `e`. -/
abbrev ReqErr := Option String

/-- Go private method `close()`: emits the observer "close" event, removes
the observer listeners and reaches the `onClose` handler site.  It mutates
no state. -/
def Consumer.close (_c : Consumer) : List Effect :=
  [Effect.observerEmit "close", Effect.observerRemoveAllListeners,
   Effect.handlerCall "onClose"]

/-- Method `Consumer.Close`: guarded by `CompareAndSwapUint32(&closed, 0, 1)`.
The winner unsubscribes from both channels, sends the
"transport.closeConsumer" request (assigning any failure to the named
return `err` and logging it), emits "@close", removes listeners and runs
the shared `close()` finalisation.  A loser returns immediately with a nil
error. -/
def Consumer.Close (c : Consumer) (reqErr : ReqErr) :
    Consumer × List Effect × ReqErr :=
  if c.closed then (c, [], none)
  else
    let c' := { c with closed := true }
    let errTrace := match reqErr with
      | some _ => [Effect.log "consumer close failed"]
      | none => []
    (c',
     [Effect.unsubscribeChannel, Effect.unsubscribePayload,
      Effect.request "transport.closeConsumer"] ++ errTrace ++
     [Effect.emit "@close", Effect.removeAllListeners] ++ c'.close,
     reqErr)

/-- Method `Consumer.transportClosed`: same CAS guard as `Close`; unsubscribes
both channels, emits "transportclose", removes listeners, reaches the
`onTransportClose` handler site and runs `close()`.  No outbound request. -/
def Consumer.transportClosed (c : Consumer) : Consumer × List Effect :=
  if c.closed then (c, [])
  else
    let c' := { c with closed := true }
    (c',
     [Effect.unsubscribeChannel, Effect.unsubscribePayload,
      Effect.safeEmit "transportclose", Effect.removeAllListeners,
      Effect.handlerCall "onTransportClose"] ++ c'.close)

/-- Method `Consumer.Pause`: captures `wasPaused := paused || producerPaused`,
sends "consumer.pause"; on failure returns the error with no mutation; on
success sets `paused := true` and, when `wasPaused` was false, emits the
observer "pause" event and reaches the `onPause` handler site. -/
def Consumer.Pause (c : Consumer) (reqErr : ReqErr) :
    Consumer × List Effect × ReqErr :=
  let wasPaused := c.paused || c.producerPaused
  match reqErr with
  | some e => (c, [Effect.request "consumer.pause"], some e)
  | none =>
    let c' := { c with paused := true }
    if !wasPaused then
      (c', [Effect.request "consumer.pause", Effect.observerEmit "pause",
            Effect.handlerCall "onPause"], none)
    else
      (c', [Effect.request "consumer.pause"], none)

/-- Method `Consumer.Resume`: captures `wasPaused := paused || producerPaused`,
sends "consumer.resume"; on failure returns the error with no mutation; on
success sets `paused := false` and, when `wasPaused && !producerPaused`,
emits the observer "resume" event and reaches the `onResume` handler
site. -/
def Consumer.Resume (c : Consumer) (reqErr : ReqErr) :
    Consumer × List Effect × ReqErr :=
  let wasPaused := c.paused || c.producerPaused
  match reqErr with
  | some e => (c, [Effect.request "consumer.resume"], some e)
  | none =>
    let c' := { c with paused := false }
    if wasPaused && !c'.producerPaused then
      (c', [Effect.request "consumer.resume", Effect.observerEmit "resume",
            Effect.handlerCall "onResume"], none)
    else
      (c', [Effect.request "consumer.resume"], none)

/-- Method `Consumer.SetPriority`: sends "consumer.setPriority"; on unmarshal
success stores the priority echoed by the worker, on failure returns the
error with no mutation. -/
def Consumer.SetPriority (c : Consumer) (_priority : Nat)
    (resp : Except String Nat) : Consumer × List Effect × ReqErr :=
  match resp with
  | Except.error e => (c, [Effect.request "consumer.setPriority"], some e)
  | Except.ok p => ({ c with priority := p },
                    [Effect.request "consumer.setPriority"], none)

/-- The control-channel notification callback registered by
`handleWorkerNotifications` (the `switch event` over
producerclose / producerpause / producerresume / score / layerschange /
trace / default).  `scoreData`, `layersData` and `traceData` stand for the
result `json.Unmarshal` would produce for the corresponding branch:
`none` is a decode failure (the branch logs and returns). -/
def Consumer.handleChannelNotification (c : Consumer) (event : String)
    (scoreData : Option ConsumerScore)
    (layersData : Option (Option ConsumerLayers))
    (traceData : Option ConsumerTraceEventData) : Consumer × List Effect :=
  if event = "producerclose" then
    if c.closed then (c, [])
    else
      let c' := { c with closed := true }
      (c',
       [Effect.unsubscribeChannel, Effect.unsubscribePayload,
        Effect.emit "@producerclose", Effect.safeEmit "producerclose",
        Effect.removeAllListeners, Effect.handlerCall "onProducerClose"] ++
       c'.close)
  else if event = "producerpause" then
    if c.producerPaused then (c, [])
    else
      let wasPaused := c.paused || c.producerPaused
      let c' := { c with producerPaused := true }
      let base := [Effect.safeEmit "producerpause",
                   Effect.handlerCall "onProducerPause"]
      if !wasPaused then
        (c', base ++ [Effect.observerEmit "pause", Effect.handlerCall "onPause"])
      else
        (c', base)
  else if event = "producerresume" then
    if !c.producerPaused then (c, [])
    else
      let wasPaused := c.paused || c.producerPaused
      let c' := { c with producerPaused := false }
      let base := [Effect.safeEmit "producerresume",
                   Effect.handlerCall "onProducerResume"]
      if wasPaused && !c.paused then
        (c', base ++ [Effect.observerEmit "resume", Effect.handlerCall "onResume"])
      else
        (c', base)
  else if event = "score" then
    match scoreData with
    | none => (c, [Effect.log "failed to unmarshal score"])
    | some score =>
      ({ c with score := score },
       [Effect.safeEmit "score", Effect.observerEmit "score",
        Effect.handlerCall "onScore"])
  else if event = "layerschange" then
    match layersData with
    | none => (c, [Effect.log "failed to unmarshal layers"])
    | some layers =>
      ({ c with currentLayers := layers },
       [Effect.safeEmit "layerschange", Effect.observerEmit "layerschange",
        Effect.handlerCall "onLayersChange"])
  else if event = "trace" then
    match traceData with
    | none => (c, [Effect.log "failed to unmarshal trace"])
    | some _ =>
      (c, [Effect.safeEmit "trace", Effect.observerEmit "trace",
           Effect.handlerCall "onTrace"])
  else
    (c, [Effect.log "ignoring unknown event in channel listener"])

/-- The payload-channel callback registered by `handleWorkerNotifications`:
"rtp" is dropped when `Closed()` reads true, otherwise emits "rtp" and
reaches the `onRtp` handler site; any other event is logged and ignored. -/
def Consumer.handlePayloadNotification (c : Consumer) (event : String) :
    Consumer × List Effect :=
  if event = "rtp" then
    if c.closed then (c, [])
    else (c, [Effect.safeEmit "rtp", Effect.handlerCall "onRtp"])
  else
    (c, [Effect.log "ignoring unknown event in payload channel listener"])

/-- One invocation in an interleaved sequence of `Close()` and
`transportClosed()` calls; `closeCall` carries the environment's answer to
the "transport.closeConsumer" request it would send. -/
inductive CloseInvocation where
  | closeCall (reqErr : ReqErr) : CloseInvocation
  | transportClosedCall : CloseInvocation
  deriving DecidableEq, Repr

/-- Run one close-path invocation; `transportClosed` has no return value in
Go, so its error slot is `none`. -/
def runCloseInvocation (c : Consumer) :
    CloseInvocation → Consumer × List Effect × ReqErr
  | CloseInvocation.closeCall reqErr => c.Close reqErr
  | CloseInvocation.transportClosedCall =>
      let r := c.transportClosed
      (r.1, r.2, none)

/-- Run a sequence of close-path invocations, concatenating the traces. -/
def runCloseSeq (c : Consumer) : List CloseInvocation → Consumer × List Effect
  | [] => (c, [])
  | inv :: rest =>
      let r1 := runCloseInvocation c inv
      let r2 := runCloseSeq r1.1 rest
      (r2.1, r1.2.1 ++ r2.2)

theorem runCloseInvocation_closed {c : Consumer} (h : c.closed = true)
    (inv : CloseInvocation) : runCloseInvocation c inv = (c, [], none) := by
  cases inv <;>
    simp [runCloseInvocation, Consumer.Close, Consumer.transportClosed, h]

theorem runCloseSeq_closed {c : Consumer} (h : c.closed = true) :
    ∀ l : List CloseInvocation, runCloseSeq c l = (c, []) := by
  intro l
  induction l with
  | nil => rfl
  | cons inv rest ih => simp [runCloseSeq, runCloseInvocation_closed h, ih]

theorem runCloseInvocation_result_closed (c : Consumer)
    (inv : CloseInvocation) : (runCloseInvocation c inv).1.closed = true := by
  cases inv <;> cases hc : c.closed <;>
    simp [runCloseInvocation, Consumer.Close, Consumer.transportClosed, hc]

/-- Claim C1: for every consumer and every nonempty interleaved sequence of
`Close()` and `transportClosed()` invocations, only the first invocation
runs side effects: the whole trace is the first invocation's trace, it
contains exactly one "transport.closeConsumer" request when the first
invocation is `Close` and none when `transportClosed` wins, exactly one
`Unsubscribe` on each channel, exactly one close-event sequence (observer
"close"), and every later invocation is a no-op returning success. -/
theorem c1_close_exactly_once (c : Consumer) (h : c.closed = false)
    (inv : CloseInvocation) (rest : List CloseInvocation) :
    (runCloseSeq c (inv :: rest)).2 = (runCloseInvocation c inv).2.1 ∧
    ((runCloseSeq c (inv :: rest)).2.count
        (Effect.request "transport.closeConsumer")
      = match inv with
        | CloseInvocation.closeCall _ => 1
        | CloseInvocation.transportClosedCall => 0) ∧
    (runCloseSeq c (inv :: rest)).2.count Effect.unsubscribeChannel = 1 ∧
    (runCloseSeq c (inv :: rest)).2.count Effect.unsubscribePayload = 1 ∧
    (runCloseSeq c (inv :: rest)).2.count (Effect.observerEmit "close") = 1 ∧
    ∀ later, runCloseInvocation (runCloseSeq c (inv :: rest)).1 later
      = ((runCloseSeq c (inv :: rest)).1, [], none) := by
  have hclosed := runCloseInvocation_result_closed c inv
  have htot : runCloseSeq c (inv :: rest)
      = ((runCloseInvocation c inv).1, (runCloseInvocation c inv).2.1) := by
    simp [runCloseSeq, runCloseSeq_closed hclosed rest]
  rw [htot]
  refine ⟨rfl, ?_, ?_, ?_, ?_,
    fun later => runCloseInvocation_closed hclosed later⟩ <;>
    cases inv with
    | closeCall re =>
        cases re <;>
          simp [runCloseInvocation, Consumer.Close, Consumer.close, h]
    | transportClosedCall =>
        simp [runCloseInvocation, Consumer.transportClosed, Consumer.close, h]

/-- Witness for C1 at a concrete consumer and a length-2 sequence. -/
theorem c1_close_exactly_once_witness :
    (runCloseSeq (newConsumer ⟨false, false, none, none⟩)
        [CloseInvocation.closeCall none,
         CloseInvocation.transportClosedCall]).2.count
      (Effect.observerEmit "close") = 1 :=
  (c1_close_exactly_once (newConsumer ⟨false, false, none, none⟩) rfl
    (CloseInvocation.closeCall none)
    [CloseInvocation.transportClosedCall]).2.2.2.2.1

/-- Claim C2 counterexample: on a fresh consumer, a first `Close()` whose
"transport.closeConsumer" request fails does NOT return success — the
request error is assigned to the named return `err` and returned. -/
theorem c2_close_error_counterexample :
    ¬ ((newConsumer ⟨false, false, none, none⟩).Close
        (some "request failed")).2.2 = none := by
  simp [newConsumer, Consumer.Close]

/-- Claim C2 (amended): on the first `Close()`, a failing
"transport.closeConsumer" request is logged and its error is returned to
the caller; the local state nevertheless still transitions to closed and
the close events ("@close", observer "close") are emitted. -/
theorem c2_close_error_still_transitions (c : Consumer) (h : c.closed = false)
    (e : String) :
    (c.Close (some e)).1.closed = true ∧
    (c.Close (some e)).2.2 = some e ∧
    Effect.log "consumer close failed" ∈ (c.Close (some e)).2.1 ∧
    Effect.emit "@close" ∈ (c.Close (some e)).2.1 ∧
    Effect.observerEmit "close" ∈ (c.Close (some e)).2.1 := by
  simp [Consumer.Close, Consumer.close, h]

/-- Witness for C2's amended theorem at a concrete consumer. -/
theorem c2_close_error_still_transitions_witness :
    ((newConsumer ⟨false, false, none, none⟩).Close
        (some "request failed")).1.closed = true :=
  (c2_close_error_still_transitions (newConsumer ⟨false, false, none, none⟩)
    rfl "request failed").1

/-- Claim C3: `Pause()` mutates nothing and returns the error when the
"consumer.pause" request fails; on success it sets `paused := true`
(leaving `producerPaused` as it was) and emits the observer "pause" event
(and reaches the `onPause` handler site) iff the consumer was not
effectively paused before the call. -/
theorem c3_pause_spec (c : Consumer) :
    (∀ e, c.Pause (some e) = (c, [Effect.request "consumer.pause"], some e)) ∧
    (c.Pause none).1.paused = true ∧
    (c.Pause none).1.producerPaused = c.producerPaused ∧
    (c.Pause none).2.2 = none ∧
    (Effect.observerEmit "pause" ∈ (c.Pause none).2.1 ↔
      (c.paused || c.producerPaused) = false) ∧
    (Effect.handlerCall "onPause" ∈ (c.Pause none).2.1 ↔
      (c.paused || c.producerPaused) = false) := by
  cases hp : c.paused <;> cases hpp : c.producerPaused <;>
    simp [Consumer.Pause, hp, hpp]

/-- Witness for C3 at a concrete consumer. -/
theorem c3_pause_spec_witness :
    ((newConsumer ⟨false, false, none, none⟩).Pause none).1.paused = true :=
  (c3_pause_spec (newConsumer ⟨false, false, none, none⟩)).2.1

/-- Claim C4: a successful `Resume()` sets `paused := false` (leaving
`producerPaused` as it was) and emits the observer "resume" event iff the
consumer was effectively paused before the call and `producerPaused` is
false after it; with `producerPaused = true`, a `Pause()` then `Resume()`
pair emits neither observer "pause" nor observer "resume". -/
theorem c4_resume_spec (c : Consumer) :
    (c.Resume none).1.paused = false ∧
    (c.Resume none).1.producerPaused = c.producerPaused ∧
    (c.Resume none).2.2 = none ∧
    (Effect.observerEmit "resume" ∈ (c.Resume none).2.1 ↔
      ((c.paused || c.producerPaused) = true ∧
       (c.Resume none).1.producerPaused = false)) ∧
    (c.producerPaused = true →
      Effect.observerEmit "pause" ∉ (c.Pause none).2.1 ∧
      Effect.observerEmit "resume" ∉ ((c.Pause none).1.Resume none).2.1) := by
  cases hp : c.paused <;> cases hpp : c.producerPaused <;>
    simp [Consumer.Resume, Consumer.Pause, hp, hpp]

/-- Witness for C4: with the producer paused, the `Pause`/`Resume` pair
emits no observer "resume". -/
theorem c4_resume_spec_witness :
    Effect.observerEmit "resume" ∉
      (((newConsumer ⟨false, true, none, none⟩).Pause none).1.Resume
        none).2.1 :=
  ((c4_resume_spec (newConsumer ⟨false, true, none, none⟩)).2.2.2.2 rfl).2

/-- Claim C5: delivering "producerpause" (resp. "producerresume") twice in
a row has the same effect on state as delivering it once — the second
delivery changes nothing and emits nothing because the `producerPaused`
guard no longer holds — and across the two deliveries the observer
"pause" (resp. "resume") event is emitted at most once. -/
theorem c5_notification_idempotent (c : Consumer) :
    (((c.handleChannelNotification "producerpause" none none
        none).1.handleChannelNotification "producerpause" none none none)
      = ((c.handleChannelNotification "producerpause" none none none).1,
         [])) ∧
    ((c.handleChannelNotification "producerpause" none none none).2.count
        (Effect.observerEmit "pause") ≤ 1) ∧
    (((c.handleChannelNotification "producerresume" none none
        none).1.handleChannelNotification "producerresume" none none none)
      = ((c.handleChannelNotification "producerresume" none none none).1,
         [])) ∧
    ((c.handleChannelNotification "producerresume" none none none).2.count
        (Effect.observerEmit "resume") ≤ 1) := by
  cases hp : c.paused <;> cases hpp : c.producerPaused <;>
    simp [Consumer.handleChannelNotification, hp, hpp]

/-- Witness for C5 at a concrete consumer. -/
theorem c5_notification_idempotent_witness :
    ((newConsumer ⟨false, false, none, none⟩).handleChannelNotification
        "producerpause" none none none).2.count
      (Effect.observerEmit "pause") ≤ 1 :=
  (c5_notification_idempotent (newConsumer ⟨false, false, none, none⟩)).2.1

/-- Claim C6: a well-formed "score" notification replaces the stored score
wholesale regardless of the prior value, and a consumer constructed
without an initial score starts with score 10, producerScore 10 and an
empty producerScores list. -/
theorem c6_score_replacement (c : Consumer) (s : ConsumerScore)
    (p pp : Bool) (pl : Option ConsumerLayers) :
    (c.handleChannelNotification "score" (some s) none none).1.score = s ∧
    (newConsumer ⟨p, pp, none, pl⟩).score = ⟨10, 10, []⟩ := by
  constructor
  · simp [Consumer.handleChannelNotification]
  · rfl

/-- Witness for C6 at the concrete score of the claim. -/
theorem c6_score_replacement_witness :
    ((newConsumer ⟨false, false, none, none⟩).handleChannelNotification
        "score" (some ⟨5, 7, [7, 3]⟩) none none).1.score = ⟨5, 7, [7, 3]⟩ :=
  (c6_score_replacement (newConsumer ⟨false, false, none, none⟩)
    ⟨5, 7, [7, 3]⟩ false false none).1

/-- Claim C8: once a consumer is closed — by `Close`, by `transportClosed`
or by a "producerclose" notification — a subsequent "rtp" payload event is
silently dropped: the handler checks the closed flag first, leaves the
state unchanged, emits no "rtp" event and reaches no `onRtp` handler
site. -/
theorem c8_post_close_rtp_drop (c : Consumer) (e : ReqErr) :
    ((c.Close e).1.handlePayloadNotification "rtp" = ((c.Close e).1, [])) ∧
    (c.transportClosed.1.handlePayloadNotification "rtp"
      = (c.transportClosed.1, [])) ∧
    ((c.handleChannelNotification "producerclose" none none
        none).1.handlePayloadNotification "rtp"
      = ((c.handleChannelNotification "producerclose" none none none).1,
         [])) := by
  cases hc : c.closed <;>
    simp [Consumer.Close, Consumer.transportClosed,
      Consumer.handleChannelNotification, Consumer.handlePayloadNotification,
      hc]

/-- Claim C9: a control-channel notification whose tag is none of the six
known events mutates no state and emits no event — the dispatcher only
logs the anomaly — so every subsequent notification is dispatched exactly
as it would have been before. -/
theorem c9_unknown_event_noop (c : Consumer) (event : String)
    (h1 : event ≠ "producerclose") (h2 : event ≠ "producerpause")
    (h3 : event ≠ "producerresume") (h4 : event ≠ "score")
    (h5 : event ≠ "layerschange") (h6 : event ≠ "trace")
    (sd : Option ConsumerScore) (ld : Option (Option ConsumerLayers))
    (td : Option ConsumerTraceEventData) :
    c.handleChannelNotification event sd ld td
      = (c, [Effect.log "ignoring unknown event in channel listener"]) ∧
    ∀ ev2 sd2 ld2 td2,
      (c.handleChannelNotification event sd ld
          td).1.handleChannelNotification ev2 sd2 ld2 td2
        = c.handleChannelNotification ev2 sd2 ld2 td2 := by
  have hstep : c.handleChannelNotification event sd ld td
      = (c, [Effect.log "ignoring unknown event in channel listener"]) := by
    simp [Consumer.handleChannelNotification, h1, h2, h3, h4, h5, h6]
  exact ⟨hstep, fun ev2 sd2 ld2 td2 => by rw [hstep]⟩

/-- Witness for C9 at a concrete unknown tag. -/
theorem c9_unknown_event_noop_witness :
    (newConsumer ⟨false, false, none, none⟩).handleChannelNotification
        "bogusevent" none none none
      = (newConsumer ⟨false, false, none, none⟩,
         [Effect.log "ignoring unknown event in channel listener"]) :=
  (c9_unknown_event_noop (newConsumer ⟨false, false, none, none⟩)
    "bogusevent" (by decide) (by decide) (by decide) (by decide) (by decide)
    (by decide) none none none).1

/-- Claim C10: local mutating calls are not guarded by the closed flag: on
an already-closed consumer, `Pause`, `Resume` and `SetPriority` still
issue their outbound channel request and, on a successful response, still
mutate the local state (Pause after Close sets `paused := true`),
returning no closed-state error. -/
theorem c10_no_closed_guard (c : Consumer) (h : c.closed = true) :
    (Effect.request "consumer.pause" ∈ (c.Pause none).2.1 ∧
     (c.Pause none).1.paused = true ∧ (c.Pause none).2.2 = none) ∧
    (Effect.request "consumer.resume" ∈ (c.Resume none).2.1 ∧
     (c.Resume none).1.paused = false ∧ (c.Resume none).2.2 = none) ∧
    (Effect.request "consumer.setPriority"
        ∈ (c.SetPriority 5 (Except.ok 5)).2.1 ∧
     (c.SetPriority 5 (Except.ok 5)).1.priority = 5 ∧
     (c.SetPriority 5 (Except.ok 5)).2.2 = none) := by
  cases hp : c.paused <;> cases hpp : c.producerPaused <;>
    simp [Consumer.Pause, Consumer.Resume, Consumer.SetPriority, hp, hpp]

/-- Witness for C10: Pause after Close sets `paused := true`. -/
theorem c10_no_closed_guard_witness :
    ((((newConsumer ⟨false, false, none, none⟩).Close none).1.Pause
        none).1.paused = true) :=
  (c10_no_closed_guard
    (((newConsumer ⟨false, false, none, none⟩).Close none).1) rfl).1.2.1

/-- Program counter plus the local `wasPaused` register of one goroutine
in the interleaving model used for C7. -/
structure RaceThread where
  pc : Nat
  wasPaused : Bool
  deriving DecidableEq, Repr

/-- The shared pause fields of one consumer together with two goroutines —
one running `Pause()` and one delivering a "producerpause" notification.
consumer.go acquires no lock around these fields (its only
synchronization import is sync/atomic, used solely for the closed flag),
so each field read or write is a separate step free to interleave with the
other goroutine. -/
structure RaceState where
  paused : Bool
  producerPaused : Bool
  pauseCaller : RaceThread
  notifHandler : RaceThread
  emissions : List String
  deriving DecidableEq, Repr

/-- One step of the goroutine running `Pause()` with a succeeding request:
pc 0 reads `wasPaused := paused || producerPaused`; pc 1 writes
`paused = true`; pc 2 emits the observer "pause" event when `wasPaused`
was false; afterwards it is done. -/
def stepPauseCaller (s : RaceState) : RaceState :=
  match s.pauseCaller.pc with
  | 0 => { s with pauseCaller := ⟨1, s.paused || s.producerPaused⟩ }
  | 1 => { s with paused := true
                  pauseCaller := ⟨2, s.pauseCaller.wasPaused⟩ }
  | 2 =>
    if !s.pauseCaller.wasPaused then
      { s with emissions := s.emissions ++ ["pause"]
               pauseCaller := ⟨3, s.pauseCaller.wasPaused⟩ }
    else
      { s with pauseCaller := ⟨3, s.pauseCaller.wasPaused⟩ }
  | _ => s

/-- One step of the goroutine delivering a "producerpause" notification:
pc 0 is the `if producerPaused { break }` guard; pc 1 reads
`wasPaused := paused || producerPaused`; pc 2 writes
`producerPaused = true`; pc 3 emits "producerpause"; pc 4 emits the
observer "pause" event when `wasPaused` was false; afterwards done. -/
def stepNotifHandler (s : RaceState) : RaceState :=
  match s.notifHandler.pc with
  | 0 =>
    if s.producerPaused then
      { s with notifHandler := ⟨5, s.notifHandler.wasPaused⟩ }
    else
      { s with notifHandler := ⟨1, s.notifHandler.wasPaused⟩ }
  | 1 => { s with notifHandler := ⟨2, s.paused || s.producerPaused⟩ }
  | 2 => { s with producerPaused := true
                  notifHandler := ⟨3, s.notifHandler.wasPaused⟩ }
  | 3 => { s with emissions := s.emissions ++ ["producerpause"]
                  notifHandler := ⟨4, s.notifHandler.wasPaused⟩ }
  | 4 =>
    if !s.notifHandler.wasPaused then
      { s with emissions := s.emissions ++ ["pause"]
               notifHandler := ⟨5, s.notifHandler.wasPaused⟩ }
    else
      { s with notifHandler := ⟨5, s.notifHandler.wasPaused⟩ }
  | _ => s

/-- Run an interleaving: `true` steps the `Pause()` caller, `false` steps
the notification handler. -/
def runRace (s : RaceState) : List Bool → RaceState
  | [] => s
  | b :: rest =>
      runRace (if b then stepPauseCaller s else stepNotifHandler s) rest

/-- Both goroutines at their entry point over a consumer with both pause
flags false. -/
def raceInit : RaceState := ⟨false, false, ⟨0, false⟩, ⟨0, false⟩, []⟩

/-- Claim C7 fails on the code: consumer.go holds no lock around the pause
flags, so the check-then-write of `Pause()` can be split by the
"producerpause" handler.  The first interleaving below — caller reads the
flags, the handler then runs to completion, the caller finishes — emits
the observer "pause" event twice, while both serialized orders emit it
exactly once; were every read-modify-write of these fields under one
per-instance mutual-exclusion domain, only the serialized outcomes could
occur. -/
theorem c7_pause_race_not_serialized :
    (runRace raceInit
        [true, false, false, false, false, false, true, true]).emissions.count
      "pause" = 2 ∧
    (runRace raceInit
        [true, true, true, false, false, false, false, false]).emissions.count
      "pause" = 1 ∧
    (runRace raceInit
        [false, false, false, false, false, true, true, true]).emissions.count
      "pause" = 1 := by
  decide

end Mediasoup
